import Mathlib

/-!
Verification of the blog-post HTTP service (src/models.js, src/server.js).

The JavaScript source is shallowly embedded: Mongoose documents become Lean
structures, route handlers become pure functions from the request data and an
explicit store state (a list of records) to a response and the new store
state.  A store fault ("the promise rejected") is injected as an explicit
`Option String` argument carrying the rejection's content, so that claims
about error handling quantify over every possible store error.  JavaScript
dynamic values that reach the handlers are modelled by `JsValue`; the
template-literal stringification of `undefined` and JavaScript string
truthiness are modelled explicitly.
-/

set_option autoImplicit false

/-- The `author` sub-object of a record: `firstName` / `lastName` may be
absent (JavaScript `undefined`), hence `Option String`. -/
structure Author where
  firstName : Option String
  lastName : Option String
  deriving Repr, DecidableEq

/-- A persisted document of the `BlogPosts` Mongoose model
(src/models.js): `mongoId` stands for the store-assigned `_id`, `created`
is a timestamp (modelled as `Nat`). -/
structure BlogRecord where
  mongoId : String
  title : String
  content : String
  author : Author
  created : Nat
  deriving Repr, DecidableEq

/-- The five-field object returned by `serialize` in src/models.js:
the only shape ever sent to clients. -/
structure PublicView where
  id : String
  title : String
  content : String
  author : String
  created : Nat
  deriving Repr, DecidableEq

/-- A JavaScript value as it can appear in a parsed JSON request body at the
positions the handlers read: `null`, a string, or an author-shaped object. -/
inductive JsValue where
  | null
  | str (s : String)
  | authorObj (a : Author)
  deriving Repr, DecidableEq

/-- JavaScript template-literal stringification of a possibly-absent string:
`undefined` interpolates as the literal text "undefined". -/
def jsStr : Option String → String
  | none => "undefined"
  | some s => s

/-- Whitespace test used by JavaScript `String.prototype.trim`. -/
def isJsWs (c : Char) : Bool :=
  c = ' ' || c = '\t' || c = '\n' || c = '\r'

/-- JavaScript `String.prototype.trim`: strip whitespace from both ends. -/
def jsTrim (s : String) : String :=
  String.mk (((s.data.dropWhile isJsWs).reverse.dropWhile isJsWs).reverse)

/-- The `authorString` virtual of src/models.js:
`${this.author.firstName} ${this.author.lastName}`.trim().
An absent name interpolates as "undefined" (JavaScript semantics). -/
def authorString (a : Author) : String :=
  jsTrim (jsStr a.firstName ++ " " ++ jsStr a.lastName)

/-- The `serialize` instance method of src/models.js: the redacted public
view `{ id, title, content, author: authorString, created }`. -/
def serialize (r : BlogRecord) : PublicView :=
  { id := r.mongoId
    title := r.title
    content := r.content
    author := authorString r.author
    created := r.created }

/-- An HTTP response as produced by the handlers in src/server.js:
plain-text body, JSON public view, JSON `{ message }`, JSON
`{ blogposts: [...] }`, or an empty body. -/
inductive Response where
  | textRes (status : Nat) (body : String)
  | jsonView (status : Nat) (v : PublicView)
  | jsonMsg (status : Nat) (message : String)
  | jsonList (status : Nat) (blogposts : List PublicView)
  | emptyRes (status : Nat)
  deriving Repr, DecidableEq

/-- Body of a `POST /blog-posts` request: each field is `none` when the key
is absent from the JSON body (so `isSome` models the JavaScript `in`
operator) and `some v` when present with value `v`. -/
structure PostBody where
  title : Option JsValue
  content : Option JsValue
  author : Option JsValue
  deriving Repr, DecidableEq

/-- Body of a `PUT /blog-posts/:id` request.  `id` is `none` when absent;
a present non-string `id` could never `===`-equal the path string, so it is
modelled by a string differing from every path id. -/
structure PutBody where
  id : Option String
  title : Option JsValue
  content : Option JsValue
  author : Option JsValue
  deriving Repr, DecidableEq

/-- The `requiredFields` array of the POST handler in src/server.js. -/
def requiredFields : List String := ["title", "content", "author"]

/-- The `updateableFields` array of the PUT handler in src/server.js. -/
def updateableFields : List String := ["title", "content", "author"]

/-- `field in req.body` for a POST body: key presence, regardless of the
value (also `null` or the empty string count as present). -/
def postBodyHas (b : PostBody) : String → Bool
  | "title" => b.title.isSome
  | "content" => b.content.isSome
  | "author" => b.author.isSome
  | _ => false

/-- The validation loop of the POST handler: scan `requiredFields` in order
and return the first field not present in the body (`List.find?` returns the
first element satisfying the predicate, exactly like the early-returning
`for` loop). -/
def findFirstMissing (b : PostBody) : Option String :=
  requiredFields.find? (fun f => !(postBodyHas b f))

/-- The 400 message built by the POST handler for a missing field. -/
def missingFieldMsg (f : String) : String :=
  "Missing `" ++ f ++ "` in request body"

/-- `req.body[field]` for the updateable fields of a PUT body. -/
def putBodyGet (b : PutBody) : String → Option JsValue
  | "title" => b.title
  | "content" => b.content
  | "author" => b.author
  | _ => none

/-- The `toUpdate` object built by the PUT handler: the
`updateableFields.forEach` loop copies `req.body[field]` for each field
present in the body, in array order. -/
def toUpdate (b : PutBody) : List (String × JsValue) :=
  updateableFields.foldl
    (fun acc f =>
      match putBodyGet b f with
      | some v => acc ++ [(f, v)]
      | none => acc)
    []

/-- JavaScript truthiness of a string: only the empty string is falsy. -/
def jsTruthyStr (s : String) : Bool :=
  decide (s ≠ "")

/-- The id guard of the PUT handler:
`req.params.id && req.body.id && req.params.id === req.body.id`. -/
def putIdCheck (paramsId : String) (bodyId : Option String) : Bool :=
  jsTruthyStr paramsId &&
    (match bodyId with
     | some s => jsTruthyStr s && decide (paramsId = s)
     | none => false)

/-- The 400 message built by the PUT handler on an id mismatch; an absent
body id interpolates as "undefined". -/
def putMismatchMsg (paramsId : String) (bodyId : Option String) : String :=
  "Request path id (" ++ paramsId ++ ") and request body id (" ++
    jsStr bodyId ++ ") must match"

/-- A document as it can actually sit in the store.  `BlogRecord` is the
well-formed shape, but `findByIdAndUpdate` runs no validators, so an update
can write `null` into the String paths `title` / `content` (`none` here)
and any value at all into the Mixed path `author` (`type: Object` in
src/models.js is a Mixed path).  The write pipeline is therefore modelled
over this general shape; the read pipeline's `serialize` is modelled on
well-formed records, the documents the service itself creates. -/
structure StoredDoc where
  mongoId : String
  title : Option String
  content : Option String
  author : JsValue
  created : Nat
  deriving Repr, DecidableEq

/-- The `authorString` getter evaluated on an arbitrary Mixed `author`
value: property access on `null` throws a TypeError (`none`, which a route
handler's catch turns into the generic 500); on a non-object value such as
a string both accesses yield `undefined`, so the template literal gives
"undefined undefined"; on an author-shaped object it is `authorString`. -/
def docAuthorString : JsValue → Option String
  | JsValue.null => none
  | JsValue.str _ => some (jsTrim ("undefined" ++ " " ++ "undefined"))
  | JsValue.authorObj a => some (authorString a)

/-- `BlogPosts.create` with the document the POST handler builds, combined
with the schema casts and validators src/models.js makes Mongoose run at
creation: `title` / `content` are `required` String paths (a plain object
fails the String cast; `null` and the empty string fail the `required`
validator), `author` is a `required` Mixed path, whose cast accepts any
value and whose `required` validator rejects only `null` / `undefined` —
so a non-object author such as a string IS persisted.  On success the
store assigns `newId` and defaults `created := now`; on cast or validation
failure the create promise rejects (`none`). -/
def createRecord (newId : String) (now : Nat) (t c a : JsValue) :
    Option StoredDoc :=
  match t, c with
  | JsValue.str ts, JsValue.str cs =>
    if ts = "" ∨ cs = "" ∨ a = JsValue.null then none
    else some { mongoId := newId, title := some ts, content := some cs,
                author := a, created := now }
  | _, _ => none

/-- `BlogPosts.findById`: first record whose `_id` matches, if any
(Mongoose resolves with `null` on a miss, modelled as `none`). -/
def findById (store : List BlogRecord) (i : String) : Option BlogRecord :=
  store.find? (fun r => r.mongoId = i)

/-- Apply one `$set` entry to a document.  Updates run no validators, only
casts: on the String paths `title` / `content` a string passes, `null`
passes uncast (the field becomes null) and a plain object fails the cast
(`none`, a CastError rejection); the Mixed path `author` accepts any
value; an unknown path would be silently dropped by strict mode (never hit:
`toUpdate` emits only the three updateable fields). -/
def setField (d : StoredDoc) (f : String) (v : JsValue) : Option StoredDoc :=
  match f with
  | "title" =>
    match v with
    | JsValue.str s => some { d with title := some s }
    | JsValue.null => some { d with title := none }
    | JsValue.authorObj _ => none
  | "content" =>
    match v with
    | JsValue.str s => some { d with content := some s }
    | JsValue.null => some { d with content := none }
    | JsValue.authorObj _ => none
  | "author" => some { d with author := v }
  | _ => some d

/-- Apply a whole `$set` document left to right. -/
def applySet (d : StoredDoc) : List (String × JsValue) → Option StoredDoc
  | [] => some d
  | (f, v) :: rest => (setField d f v).bind (fun d2 => applySet d2 rest)

/-- `BlogPosts.findByIdAndUpdate(id, { $set: upd })`: resolves with the
matched document (`none` when the id matches nothing, which is not an
error) and the new store contents; rejects (`Except.error`) on a cast
failure. -/
def findByIdAndUpdate (store : List StoredDoc) (i : String)
    (upd : List (String × JsValue)) :
    Except String (Option StoredDoc × List StoredDoc) :=
  match store.find? (fun r => r.mongoId = i) with
  | none => Except.ok (none, store)
  | some r =>
    match applySet r upd with
    | some r2 =>
      Except.ok (some r, store.map (fun x => if x.mongoId = i then r2 else x))
    | none => Except.error "CastError"

/-- `BlogPosts.findByIdAndRemove(id)`: resolves with the removed document
(`none` when the id matches nothing, which is not an error) and the new
store contents. -/
def findByIdAndRemove (store : List StoredDoc) (i : String) :
    Option StoredDoc × List StoredDoc :=
  (store.find? (fun r => r.mongoId = i),
   store.filter (fun r => !(r.mongoId = i)))

/-- The fixed generic 500 body used by every catch handler. -/
def internalErrorResp : Response :=
  Response.jsonMsg 500 "Internal server error"

/-- `GET /blog-posts`: `find().limit(10)` then serialize each record into
`{ blogposts: [...] }`; any store rejection is caught as the generic 500.
`storeFault = some e` means the store promise rejected with `e`. -/
def listHandler (store : List BlogRecord) (storeFault : Option String) :
    Response :=
  match storeFault with
  | some _ => internalErrorResp
  | none => Response.jsonList 200 ((store.take 10).map serialize)

/-- `GET /blog-posts/:id`: `findById` then `blogpost.serialize()` in the
success callback.  On a miss the promise resolves with `null`, the
`.serialize()` call throws, the resulting rejection reaches the same catch
handler — so a miss produces the very same generic 500 as a store error. -/
def getByIdHandler (store : List BlogRecord) (i : String)
    (storeFault : Option String) : Response :=
  match storeFault with
  | some _ => internalErrorResp
  | none =>
    match findById store i with
    | some r => Response.jsonView 200 (serialize r)
    | none => internalErrorResp

/-- `POST /blog-posts`: the validation loop runs first and returns 400 with
a plain-text message before any store access; otherwise `BlogPosts.create`
runs with the three body values and `blogpost.serialize()` runs on the
created document (for documents `createRecord` produces the serializing
match always hits its first branch; the fallback maps a serialization
throw inside the `.then` to the catch handler's generic 500).  The `Bool`
component records whether the create call was made.  `newId` / `now` are
the id and timestamp the store would assign. -/
def postHandler (b : PostBody) (storeFault : Option String) (newId : String)
    (now : Nat) : Response × Bool :=
  match findFirstMissing b with
  | some f => (Response.textRes 400 (missingFieldMsg f), false)
  | none =>
    match storeFault with
    | some _ => (internalErrorResp, true)
    | none =>
      match createRecord newId now (b.title.getD JsValue.null)
          (b.content.getD JsValue.null) (b.author.getD JsValue.null) with
      | some d =>
        match d.title, d.content, docAuthorString d.author with
        | some ts, some cs, some as2 =>
          (Response.jsonView 201
            { id := d.mongoId, title := ts, content := cs, author := as2,
              created := d.created }, true)
        | _, _, _ => (internalErrorResp, true)
      | none => (internalErrorResp, true)

/-- `PUT /blog-posts/:id`: the id guard returns 400 before any store access;
otherwise `findByIdAndUpdate` runs with the `toUpdate` document and the
handler answers 204 on resolution (even when nothing matched) and the
generic 500 on rejection.  Returns (response, new store contents, whether a
store operation was performed). -/
def putHandler (paramsId : String) (b : PutBody) (store : List StoredDoc)
    (storeFault : Option String) : Response × List StoredDoc × Bool :=
  if putIdCheck paramsId b.id then
    match storeFault with
    | some _ => (internalErrorResp, store, true)
    | none =>
      match findByIdAndUpdate store paramsId (toUpdate b) with
      | Except.ok (_, store2) => (Response.emptyRes 204, store2, true)
      | Except.error _ => (internalErrorResp, store, true)
  else
    (Response.jsonMsg 400 (putMismatchMsg paramsId b.id), store, false)

/-- `DELETE /blog-posts/:id`: `findByIdAndRemove` then 204 on resolution
(also when nothing matched), the generic 500 on rejection. -/
def deleteHandler (store : List StoredDoc) (i : String)
    (storeFault : Option String) : Response × List StoredDoc :=
  match storeFault with
  | some _ => (internalErrorResp, store)
  | none => (Response.emptyRes 204, (findByIdAndRemove store i).2)

/-- Resource state after `runServer` settles: whether the store connection
and the HTTP listener are up. -/
structure StartState where
  storeConnected : Bool
  listenerBound : Bool
  deriving Repr, DecidableEq

/-- `runServer(databaseUrl, port)` of src/server.js, as a function of the
two possible failures: `connectErr` is what `mongoose.connect` reports,
`listenErr` is the bind error the listener's "error" event reports.  A
connect failure rejects before `app.listen` is reached; a bind failure
triggers `mongoose.disconnect()` and rejects; the promise resolves only
inside the successful `listen` callback.  The `StartState` is the resource
state once the returned promise settles. -/
def runServer (connectErr : Option String) (listenErr : Option String) :
    Except String Unit × StartState :=
  match connectErr with
  | some e => (Except.error e, { storeConnected := false, listenerBound := false })
  | none =>
    match listenErr with
    | some e => (Except.error e, { storeConnected := false, listenerBound := false })
    | none => (Except.ok (), { storeConnected := true, listenerBound := true })

/-- For comparison with the spec's words only (not from the source): the
spec claims absent `firstName`/`lastName` are treated as the EMPTY string in
the concatenation before trimming. -/
def authorStringSpec (a : Author) : String :=
  jsTrim (a.firstName.getD "" ++ " " ++ a.lastName.getD "")

/-- Whether the `$set` document a PUT body produces passes the casts: only
a plain object on one of the String paths `title` / `content` is a
CastError; every other body value (strings, `null`, anything at all for
`author`) is written as sent. -/
def putCastOk (b : PutBody) : Bool :=
  (match b.title with | some (JsValue.authorObj _) => false | _ => true) &&
    (match b.content with | some (JsValue.authorObj _) => false | _ => true)

/-- The document obtained by applying a PUT body's `$set` document to a
stored document, in the cast-passing case: each present field is written
as sent (`null` clears a String path), absent fields are untouched. -/
def applyPutBody (d : StoredDoc) (b : PutBody) : StoredDoc :=
  { d with
    title := match b.title with
             | none => d.title
             | some JsValue.null => none
             | some (JsValue.str s) => some s
             | some (JsValue.authorObj _) => d.title
    content := match b.content with
               | none => d.content
               | some JsValue.null => none
               | some (JsValue.str s) => some s
               | some (JsValue.authorObj _) => d.content
    author := match b.author with
              | none => d.author
              | some v => v }

/-- Fixture: a well-formed record whose author has no `lastName`. -/
def recMissingLastName : BlogRecord :=
  { mongoId := "5a0", title := "t", content := "c",
    author := { firstName := some "J", lastName := none }, created := 0 }

/-- Fixture: a POST body missing the `title` key. -/
def pbMissingTitle : PostBody :=
  { title := none, content := some (JsValue.str "c"),
    author := some (JsValue.authorObj { firstName := some "J", lastName := some "D" }) }

/-- Fixture: a POST body whose keys are all present but whose title is the
empty string and whose author is `null`. -/
def pbEmptyTitle : PostBody :=
  { title := some (JsValue.str ""), content := some (JsValue.str "c"),
    author := some JsValue.null }

/-- Fixture: a fully valid POST body. -/
def pbFull : PostBody :=
  { title := some (JsValue.str "t"), content := some (JsValue.str "c"),
    author := some (JsValue.authorObj { firstName := some "J", lastName := some "D" }) }

/-- Fixture: a stored record with id "a1". -/
def recA : BlogRecord :=
  { mongoId := "a1", title := "t0", content := "c0",
    author := { firstName := some "J", lastName := some "D" }, created := 7 }

/-- Fixture: the stored document with id "a1", as a general store
document. -/
def docA : StoredDoc :=
  { mongoId := "a1", title := some "t0", content := some "c0",
    author := JsValue.authorObj { firstName := some "J", lastName := some "D" },
    created := 7 }

/-- Fixture: a PUT body updating only the title of record "a1". -/
def putBodyTitleOnly : PutBody :=
  { id := some "a1", title := some (JsValue.str "t1"), content := none,
    author := none }

/-- Fixture: a PUT body whose id "b2" differs from the path id "a1". -/
def putBodyWrongId : PutBody :=
  { id := some "b2", title := none, content := none, author := none }

/-- Fixture: a PUT body for record "a1" clearing the title with `null` and
writing a plain string over the Mixed `author` path. -/
def putBodyNullTitle : PutBody :=
  { id := some "a1", title := some JsValue.null, content := none,
    author := some (JsValue.str "bob") }

/-- Claim C1: a POST body missing at least one of title, content, author is
answered with status 400 and a plain-text message naming the first missing
field in the order title, content, author, and the handler returns before
any store create call (the `false` component). -/
theorem c1_post_missing_field (b : PostBody) (storeFault : Option String)
    (newId : String) (now : Nat)
    (h : b.title = none ∨ b.content = none ∨ b.author = none) :
    ∃ f, findFirstMissing b = some f ∧
      (b.title = none → f = "title") ∧
      (b.title ≠ none → b.content = none → f = "content") ∧
      (b.title ≠ none → b.content ≠ none → b.author = none → f = "author") ∧
      postHandler b storeFault newId now =
        (Response.textRes 400 (missingFieldMsg f), false) := by
  obtain ⟨t, c, a⟩ := b
  cases t with
  | none =>
    exact ⟨"title", rfl, fun _ => rfl, fun h1 _ => absurd rfl h1,
      fun h1 _ _ => absurd rfl h1, rfl⟩
  | some vt =>
    cases c with
    | none =>
      exact ⟨"content", rfl, fun h1 => by simp at h1, fun _ _ => rfl,
        fun _ h2 _ => absurd rfl h2, rfl⟩
    | some vc =>
      cases a with
      | none =>
        exact ⟨"author", rfl, fun h1 => by simp at h1,
          fun _ h2 => by simp at h2, fun _ _ _ => rfl, rfl⟩
      | some va => simp at h

/-- Witness for C1 at a concrete body missing only `title`. -/
theorem c1_post_missing_field_witness :
    ∃ f, findFirstMissing pbMissingTitle = some f ∧
      (pbMissingTitle.title = none → f = "title") ∧
      (pbMissingTitle.title ≠ none → pbMissingTitle.content = none →
        f = "content") ∧
      (pbMissingTitle.title ≠ none → pbMissingTitle.content ≠ none →
        pbMissingTitle.author = none → f = "author") ∧
      postHandler pbMissingTitle none "id1" 0 =
        (Response.textRes 400 (missingFieldMsg f), false) :=
  c1_post_missing_field pbMissingTitle none "id1" 0 (Or.inl rfl)

/-- Claim C2 counterexample: for a record whose author has no `lastName`,
`serialize` yields "J undefined" — the absent name interpolates as the
string "undefined" under JavaScript template-literal semantics — whereas
treating the absent field as the empty string (the claim) would yield
"J". -/
theorem c2_counterexample :
    (serialize recMissingLastName).author = "J undefined" ∧
    authorStringSpec recMissingLastName.author = "J" ∧
    (serialize recMissingLastName).author ≠
      authorStringSpec recMissingLastName.author := by
  refine ⟨by decide, by decide, by decide⟩

/-- Claim C2 amended: `serialize` returns exactly the five-field object
`{ id, title, content, author, created }` where `author` is
`firstName ++ " " ++ lastName` trimmed when both names are present; an
absent name contributes the literal string "undefined" (not the empty
string) to the concatenation. -/
theorem c2_amended_serialize (r : BlogRecord) :
    (serialize r).id = r.mongoId ∧ (serialize r).title = r.title ∧
    (serialize r).content = r.content ∧ (serialize r).created = r.created ∧
    (∀ fn ln, r.author.firstName = some fn → r.author.lastName = some ln →
      (serialize r).author = jsTrim (fn ++ " " ++ ln)) ∧
    (∀ ln, r.author.firstName = none → r.author.lastName = some ln →
      (serialize r).author = jsTrim ("undefined" ++ " " ++ ln)) ∧
    (∀ fn, r.author.firstName = some fn → r.author.lastName = none →
      (serialize r).author = jsTrim (fn ++ " " ++ "undefined")) ∧
    (r.author.firstName = none → r.author.lastName = none →
      (serialize r).author = "undefined undefined") := by
  refine ⟨rfl, rfl, rfl, rfl, ?_, ?_, ?_, ?_⟩
  · intro fn ln h1 h2
    simp [serialize, authorString, h1, h2, jsStr]
  · intro ln h1 h2
    simp [serialize, authorString, h1, h2, jsStr]
  · intro fn h1 h2
    simp [serialize, authorString, h1, h2, jsStr]
  · intro h1 h2
    simp only [serialize, authorString, h1, h2]
    decide

/-- Witness for the amended C2 at the concrete record above. -/
theorem c2_amended_serialize_witness :
    (serialize recMissingLastName).author = jsTrim ("J" ++ " " ++ "undefined") :=
  (c2_amended_serialize recMissingLastName).2.2.2.2.2.2.1 "J" rfl rfl

/-- The `toUpdate` document contains a pair `(f, v)` exactly when `f` is
one of the updateable fields and the body carries value `v` for it — in
particular neither `id` nor `created` is ever sent. -/
theorem mem_toUpdate_iff (b : PutBody) (f : String) (v : JsValue) :
    (f, v) ∈ toUpdate b ↔ (f ∈ updateableFields ∧ putBodyGet b f = some v) := by
  obtain ⟨i, t, c, a⟩ := b
  by_cases h1 : f = "title"
  · subst h1
    cases t <;> cases c <;> cases a <;>
      simp [toUpdate, updateableFields, putBodyGet, eq_comm]
  by_cases h2 : f = "content"
  · subst h2
    cases t <;> cases c <;> cases a <;>
      simp [toUpdate, updateableFields, putBodyGet, eq_comm]
  by_cases h3 : f = "author"
  · subst h3
    cases t <;> cases c <;> cases a <;>
      simp [toUpdate, updateableFields, putBodyGet, eq_comm]
  · cases t <;> cases c <;> cases a <;>
      simp [toUpdate, updateableFields, putBodyGet, h1, h2, h3]

/-- Applying the `toUpdate` document via `$set` succeeds exactly when the
casts pass (`putCastOk`) and then produces `applyPutBody`. -/
theorem applySet_toUpdate_eq (d : StoredDoc) (b : PutBody) :
    applySet d (toUpdate b) =
      if putCastOk b then some (applyPutBody d b) else none := by
  obtain ⟨i, t, c, a⟩ := b
  rcases t with _ | (_ | s1 | x1) <;> rcases c with _ | (_ | s2 | x2) <;>
      rcases a with _ | v3 <;>
    simp [toUpdate, applySet, setField, putCastOk, applyPutBody,
      updateableFields, putBodyGet]

/-- Claim C3: for every PUT with matching path and body ids, the `$set`
document sent to the store holds exactly the updateable fields present in
the body with the values sent; whenever the store update resolves, the
response is 204 with an empty body and the matched document changes
exactly in the present fields — a sent string is written, `null` clears a
String path, the Mixed author takes any sent value — while `_id`,
`created` and every other stored document are unchanged; and the update
resolves for every body except one writing a plain object into title or
content, which is a CastError answered by the generic 500 with the store
unchanged. -/
theorem c3_put_partial_update (paramsId : String) (b : PutBody)
    (pre : List StoredDoc) (d : StoredDoc)
    (hid : b.id = some paramsId) (hp : paramsId ≠ "")
    (hfind : pre.find? (fun x => x.mongoId = paramsId) = some d) :
    (∀ f v, (f, v) ∈ toUpdate b ↔
      (f ∈ updateableFields ∧ putBodyGet b f = some v)) ∧
    (∀ d2, applySet d (toUpdate b) = some d2 →
      putHandler paramsId b pre none =
        (Response.emptyRes 204,
         pre.map (fun x => if x.mongoId = paramsId then d2 else x), true) ∧
      d2.mongoId = d.mongoId ∧ d2.created = d.created ∧
      (b.title = none → d2.title = d.title) ∧
      (b.title = some JsValue.null → d2.title = none) ∧
      (∀ s, b.title = some (JsValue.str s) → d2.title = some s) ∧
      (b.content = none → d2.content = d.content) ∧
      (b.content = some JsValue.null → d2.content = none) ∧
      (∀ s, b.content = some (JsValue.str s) → d2.content = some s) ∧
      (b.author = none → d2.author = d.author) ∧
      (∀ v, b.author = some v → d2.author = v)) ∧
    ((∀ x, b.title ≠ some (JsValue.authorObj x)) →
     (∀ x, b.content ≠ some (JsValue.authorObj x)) →
      ∃ d2, applySet d (toUpdate b) = some d2) ∧
    (∀ x, (b.title = some (JsValue.authorObj x) ∨
        b.content = some (JsValue.authorObj x)) →
      putHandler paramsId b pre none =
        (Response.jsonMsg 500 "Internal server error", pre, true)) := by
  have hcheck : putIdCheck paramsId b.id = true := by
    simp [putIdCheck, hid, jsTruthyStr, hp]
  refine ⟨fun f v => mem_toUpdate_iff b f v, ?_, ?_, ?_⟩
  · intro d2 happ
    rw [applySet_toUpdate_eq] at happ
    cases hco : putCastOk b with
    | false => rw [hco] at happ; simp at happ
    | true =>
      rw [hco] at happ
      simp only [if_true] at happ
      obtain rfl := Option.some.inj happ
      refine ⟨?_, rfl, rfl, ?_, ?_, ?_, ?_, ?_, ?_, ?_, ?_⟩
      · simp [putHandler, hcheck, findByIdAndUpdate, hfind,
          applySet_toUpdate_eq, hco]
      · intro h; simp [applyPutBody, h]
      · intro h; simp [applyPutBody, h]
      · intro s h; simp [applyPutBody, h]
      · intro h; simp [applyPutBody, h]
      · intro h; simp [applyPutBody, h]
      · intro s h; simp [applyPutBody, h]
      · intro h; simp [applyPutBody, h]
      · intro v h; simp [applyPutBody, h]
  · intro hnt hnc
    refine ⟨applyPutBody d b, ?_⟩
    have hco : putCastOk b = true := by
      unfold putCastOk
      cases hbt : b.title with
      | none => cases hbc : b.content with
        | none => rfl
        | some v2 => cases v2 <;> first | rfl | exact absurd hbc (hnc _)
      | some v1 =>
        cases v1 with
        | null => cases hbc : b.content with
          | none => rfl
          | some v2 => cases v2 <;> first | rfl | exact absurd hbc (hnc _)
        | str s => cases hbc : b.content with
          | none => rfl
          | some v2 => cases v2 <;> first | rfl | exact absurd hbc (hnc _)
        | authorObj x => exact absurd hbt (hnt x)
    simp [applySet_toUpdate_eq, hco]
  · intro x hx
    have hco : putCastOk b = false := by
      rcases hx with h | h <;> simp [putCastOk, h]
    simp [putHandler, hcheck, findByIdAndUpdate, hfind,
      applySet_toUpdate_eq, hco, internalErrorResp]

/-- Witness for C3: on a one-document store, a matching-id PUT that clears
the title with `null` and writes the plain string "bob" over the Mixed
author path resolves and answers 204, the document updated exactly in
those two fields. -/
theorem c3_put_partial_update_witness :
    putHandler "a1" putBodyNullTitle [docA] none =
      (Response.emptyRes 204,
       [docA].map (fun x => if x.mongoId = "a1"
         then applyPutBody docA putBodyNullTitle else x), true) :=
  ((c3_put_partial_update "a1" putBodyNullTitle [docA] docA rfl (by decide)
      (by decide)).2.1
    (applyPutBody docA putBodyNullTitle) (by decide)).1

/-- Claim C4: a PUT whose path id and body id are not both present and
equal (given a non-empty path id, as any matched route provides) is
answered 400 with the JSON mismatch message, no store operation happens and
the store is unchanged. -/
theorem c4_put_mismatch (paramsId : String) (b : PutBody)
    (store : List StoredDoc) (storeFault : Option String)
    (hp : paramsId ≠ "") (hm : b.id ≠ some paramsId) :
    putHandler paramsId b store storeFault =
      (Response.jsonMsg 400 (putMismatchMsg paramsId b.id), store, false) := by
  have hcheck : putIdCheck paramsId b.id = false := by
    cases hbid : b.id with
    | none => simp [putIdCheck]
    | some s =>
      have hne : paramsId ≠ s := fun he => hm (by rw [hbid, he])
      simp [putIdCheck, jsTruthyStr, hne]
  simp [putHandler, hcheck]

/-- Witness for C4 at a concrete mismatched request. -/
theorem c4_put_mismatch_witness :
    putHandler "a1" putBodyWrongId [docA] none =
      (Response.jsonMsg 400 (putMismatchMsg "a1" putBodyWrongId.id),
       [docA], false) :=
  c4_put_mismatch "a1" putBodyWrongId [docA] none (by decide) (by decide)

/-- Claim C5: a GET by id answers 200 with the bare serialized public view
when the lookup finds a record; a lookup miss and a store error both
produce the identical generic 500 — not-found is not distinguished from a
server error. -/
theorem c5_get_by_id (store : List BlogRecord) (i : String) :
    (∀ r, findById store i = some r →
      getByIdHandler store i none = Response.jsonView 200 (serialize r)) ∧
    (findById store i = none →
      getByIdHandler store i none =
        Response.jsonMsg 500 "Internal server error") ∧
    (∀ e, getByIdHandler store i (some e) =
      Response.jsonMsg 500 "Internal server error") := by
  refine ⟨?_, ?_, fun e => rfl⟩
  · intro r h; simp [getByIdHandler, h]
  · intro h; simp [getByIdHandler, h, internalErrorResp]

/-- Witness for C5: hit, miss and store error on a one-record store. -/
theorem c5_get_by_id_witness :
    getByIdHandler [recA] "a1" none = Response.jsonView 200 (serialize recA) ∧
    getByIdHandler [recA] "zz" none =
      Response.jsonMsg 500 "Internal server error" ∧
    getByIdHandler [recA] "a1" (some "boom") =
      Response.jsonMsg 500 "Internal server error" :=
  ⟨(c5_get_by_id [recA] "a1").1 recA (by decide),
   (c5_get_by_id [recA] "zz").2.1 (by decide),
   (c5_get_by_id [recA] "a1").2.2 "boom"⟩

/-- Claim C6 counterexample: the POST handler's validation only checks key
presence, so a body whose title is the empty string and whose author is
`null` passes validation and the create call is made — the non-empty /
non-null invariant is NOT enforced at the HTTP boundary (the store's schema
then rejects it, surfacing as a 500, not a 400). -/
theorem c6_counterexample :
    findFirstMissing pbEmptyTitle = none ∧
    (postHandler pbEmptyTitle none "id1" 0).2 = true ∧
    (postHandler pbEmptyTitle none "id1" 0).1 =
      Response.jsonMsg 500 "Internal server error" := by
  refine ⟨by decide, by decide, by decide⟩

/-- Claim C6 amended: every document the store persists at creation has a
non-empty title, a non-empty content and a non-null author VALUE — the
`required` validators reject `null` and, on the String paths, the empty
string — but the author need not be an object: the Mixed path persists any
non-null value, for instance a plain string.  None of this is enforced at
the HTTP boundary: the create handler's validation only checks that the
three keys are present in the body. -/
theorem c6_amended_invariant :
    (∀ newId now t c a d, createRecord newId now t c a = some d →
      d.title ≠ none ∧ d.title ≠ some "" ∧ d.content ≠ none ∧
      d.content ≠ some "" ∧ d.author ≠ JsValue.null) ∧
    (∀ newId now t c, createRecord newId now t c JsValue.null = none) ∧
    (∀ newId now ts cs s, ts ≠ "" → cs ≠ "" →
      createRecord newId now (JsValue.str ts) (JsValue.str cs)
        (JsValue.str s) =
        some { mongoId := newId, title := some ts, content := some cs,
               author := JsValue.str s, created := now }) ∧
    (∀ b : PostBody, findFirstMissing b = none ↔
      b.title.isSome ∧ b.content.isSome ∧ b.author.isSome) := by
  refine ⟨?_, ?_, ?_, ?_⟩
  · intro newId now t c a d h
    cases t <;> cases c <;> simp [createRecord] at h
    rcases h with ⟨⟨ht, hc, ha⟩, rfl⟩
    exact ⟨by simp, by simp [ht], by simp, by simp [hc], by simp [ha]⟩
  · intro newId now t c
    cases t <;> cases c <;> simp [createRecord]
  · intro newId now ts cs s hts hcs
    simp [createRecord, hts, hcs]
  · intro b
    obtain ⟨t, c, a⟩ := b
    cases t <;> cases c <;> cases a <;>
      simp [findFirstMissing, requiredFields, postBodyHas]

/-- Witness for the amended C6: a creation whose author value is the plain
string "bob" is persisted with that author value. -/
theorem c6_amended_invariant_witness :
    createRecord "id1" 0 (JsValue.str "t") (JsValue.str "c")
      (JsValue.str "bob") =
      some { mongoId := "id1", title := some "t", content := some "c",
             author := JsValue.str "bob", created := 0 } :=
  c6_amended_invariant.2.2.1 "id1" 0 "t" "c" "bob" (by decide) (by decide)

/-- Claim C7: a successful GET of the collection answers 200 with a
`{ blogposts: [...] }` body of at most 10 items, each item being the
serialized public view of a stored record (a `PublicView` carries the
author string, never the raw author object or internal fields). -/
theorem c7_list_capped (store : List BlogRecord) :
    ∃ l : List PublicView,
      listHandler store none = Response.jsonList 200 l ∧
      l.length ≤ 10 ∧
      (∀ v ∈ l, ∃ r ∈ store, v = serialize r) := by
  refine ⟨(store.take 10).map serialize, rfl, ?_, ?_⟩
  · simp [List.length_take]
  · intro v hv
    simp only [List.mem_map] at hv
    obtain ⟨r, hr, rfl⟩ := hv
    exact ⟨r, List.mem_of_mem_take hr, rfl⟩

/-- Witness for C7 at a concrete one-record store. -/
theorem c7_list_capped_witness :
    ∃ l : List PublicView,
      listHandler [recA] none = Response.jsonList 200 l ∧
      l.length ≤ 10 ∧
      (∀ v ∈ l, ∃ r ∈ [recA], v = serialize r) :=
  c7_list_capped [recA]

/-- Claim C8: whatever content a store rejection carries, every route
handler answers with exactly `500 { message: "Internal server error" }`
(for POST and PUT, once the pre-store validation has passed); the
underlying error never appears in the response, which is the same fixed
value for every error. -/
theorem c8_store_errors_fixed500 (e : String) :
    (∀ store, listHandler store (some e) =
      Response.jsonMsg 500 "Internal server error") ∧
    (∀ store i, getByIdHandler store i (some e) =
      Response.jsonMsg 500 "Internal server error") ∧
    (∀ b newId now, findFirstMissing b = none →
      (postHandler b (some e) newId now).1 =
        Response.jsonMsg 500 "Internal server error") ∧
    (∀ paramsId b store, putIdCheck paramsId b.id = true →
      (putHandler paramsId b store (some e)).1 =
        Response.jsonMsg 500 "Internal server error") ∧
    (∀ store i, (deleteHandler store i (some e)).1 =
      Response.jsonMsg 500 "Internal server error") := by
  refine ⟨fun store => rfl, fun store i => rfl, ?_, ?_, fun store i => rfl⟩
  · intro b newId now h
    simp [postHandler, h, internalErrorResp]
  · intro paramsId b store h
    simp [putHandler, h, internalErrorResp]

/-- Witness for C8 at a concrete store error. -/
theorem c8_store_errors_fixed500_witness :
    listHandler [recA] (some "connection lost") =
      Response.jsonMsg 500 "Internal server error" ∧
    (postHandler pbFull (some "connection lost") "id1" 0).1 =
      Response.jsonMsg 500 "Internal server error" ∧
    (putHandler "a1" putBodyTitleOnly [docA] (some "connection lost")).1 =
      Response.jsonMsg 500 "Internal server error" :=
  ⟨(c8_store_errors_fixed500 "connection lost").1 [recA],
   (c8_store_errors_fixed500 "connection lost").2.2.1 pbFull "id1" 0 (by decide),
   (c8_store_errors_fixed500 "connection lost").2.2.2.1 "a1" putBodyTitleOnly
     [docA] (by decide)⟩

/-- Claim C9: `runServer` resolves exactly when both the store connection
and the listener bind succeed (and then both resources are up); a connect
failure rejects with no listener ever bound; a bind failure rejects after
tearing the store connection down — no partial-start state survives either
failure. -/
theorem c9_run_server (connectErr listenErr : Option String) :
    ((runServer connectErr listenErr).1 = Except.ok () ↔
      connectErr = none ∧ listenErr = none) ∧
    ((runServer connectErr listenErr).1 = Except.ok () →
      (runServer connectErr listenErr).2 =
        { storeConnected := true, listenerBound := true }) ∧
    (∀ e, connectErr = some e →
      runServer connectErr listenErr =
        (Except.error e,
         { storeConnected := false, listenerBound := false })) ∧
    (∀ e, connectErr = none → listenErr = some e →
      runServer connectErr listenErr =
        (Except.error e,
         { storeConnected := false, listenerBound := false })) := by
  cases connectErr <;> cases listenErr <;> simp [runServer]

/-- Witness for C9: a failed listener bind after a successful connect. -/
theorem c9_run_server_witness :
    runServer none (some "EADDRINUSE") =
      (Except.error "EADDRINUSE",
       { storeConnected := false, listenerBound := false }) :=
  (c9_run_server none (some "EADDRINUSE")).2.2.2 "EADDRINUSE" rfl rfl

